import Mathlib

/-!
slappd: the slash-command relay of `slappd.go`.

A shallow embedding of the two request handlers of `src/slappd.go`
(`isAuthorized`, `searchHandler`, `selectHandler`) and of the route table of
`main`, followed by theorems about them.

Conventions of the embedding.

* A Go handler `func(w http.ResponseWriter, r *http.Request)` becomes a function
  `Request → World → Outcome`.  `World` is the explicit state the handler acts on:
  the response (header map, status code, body), the server log, and the ordered
  list of calls made to the collaborators (`untappd.Search`, `untappd.Info`, the
  wrapped handler).  `Outcome` says whether the handler returned or hit a runtime
  panic.
* The collaborators that live outside `slappd.go` (the process environment, the
  `untappd` client, the `slack` constructors, `encoding/json`) are the fields of
  `Deps`; every theorem holds for all of them unless it names a hypothesis.
* Go strings are Lean strings.  The only string operations of the source are
  equality and `strings.Split` on the one-byte separator `","`, which agree on
  bytes and on characters for UTF-8 text.
-/

namespace Slappd

/-! ## Constants (`slappd.go` lines 18-23) -/

/-- The constant `callbackID`. -/
def callbackID : String := "slappd"

/-- The constant `MaxResults`: the max number of results that are shown to the user. -/
def MaxResults : Nat := 5

/-! ## Data model of the `slack` and `untappd` packages -/

/-- Modelled from the spec: the type `slack.Action` is declared in `internal/slack`,
which is not part of the source at hand.  The spec gives an action as a label
plus an opaque value (the item identifier); `slappd.go` reads only `Value`. -/
structure Action where
  Label : String
  Value : String
deriving DecidableEq, Repr

/-- Modelled from the spec: the type `slack.Attachment` is declared in
`internal/slack`.  The fields are the five that `slappd.go` sets in its
composite literals; a field left out of a literal holds Go's zero value
(the empty string, the nil slice). -/
structure Attachment where
  Title : String := ""
  Text : String := ""
  ImageURL : String := ""
  CallbackID : String := ""
  Actions : List Action := []
deriving DecidableEq, Repr

/-- Modelled from the spec: the type `slack.Message` is declared in
`internal/slack`.  The spec gives an outbound message as a list of attachments;
`Extra` stands for every other field that `slack.NewMessage` or
`slack.NewEmptyMessage` may set and that `slappd.go` never reads or writes. -/
structure Message where
  Extra : String := ""
  Attachments : List Attachment := []
deriving DecidableEq, Repr

/-- Modelled from the spec: the type `slack.ActionPayload` is declared in
`internal/slack`.  The spec gives it as a callback identifier and a list of
chosen actions; `slappd.go` reads `CallbackID` and `Actions[0].Value`. -/
structure ActionPayload where
  Actions : List Action := []
  CallbackID : String := ""
deriving DecidableEq, Repr

/-- Modelled from the spec: the `Beer` member of a search item (`internal/untappd`);
`slappd.go` reads only `item.Beer.ID`, the stable identifier of the item. -/
structure ItemBeer where
  ID : String
deriving DecidableEq, Repr

/-- Modelled from the spec: one item of a search result (`internal/untappd`): a
stable identifier and a display title.  `slappd.go` observes an item only through
`item.Beer.ID` and the method `item.Title()`; the result of that method is
carried as the field `DisplayTitle`. -/
structure Item where
  Beer : ItemBeer
  DisplayTitle : String
deriving DecidableEq, Repr

/-- The method `item.Title()`. -/
def Item.Title (item : Item) : String := item.DisplayTitle

/-- The member `Response.Beers` of the search result. -/
structure SearchBeers where
  Items : List Item := []
deriving DecidableEq, Repr

/-- The member `Response` of the search result. -/
structure SearchResponse where
  Beers : SearchBeers := {}
deriving DecidableEq, Repr

/-- Modelled from the spec: the result of `untappd.Search` (`internal/untappd`);
`slappd.go` reads `ud.Response.Beers.Items`. -/
structure SearchData where
  Response : SearchResponse := {}
deriving DecidableEq, Repr

/-- The member `Response.Beer` of a detail record. -/
structure InfoBeer where
  Label : String
deriving DecidableEq, Repr

/-- The member `Response` of a detail record. -/
structure InfoResponse where
  Beer : InfoBeer
deriving DecidableEq, Repr

/-- Modelled from the spec: the detail record returned by `untappd.Info`
(`internal/untappd`): title, descriptive text and image URL.  `slappd.go`
observes it through the methods `Title()` and `Text()`, whose results are
carried as `DisplayTitle` and `DisplayText`, and through `Response.Beer.Label`. -/
structure InfoData where
  Response : InfoResponse
  DisplayTitle : String
  DisplayText : String
deriving DecidableEq, Repr

/-- The method `id.Title()`. -/
def InfoData.Title (id : InfoData) : String := id.DisplayTitle

/-- The method `id.Text()`. -/
def InfoData.Text (id : InfoData) : String := id.DisplayText

/-! ## Collaborators -/

/-- Everything `slappd.go` calls that is defined elsewhere.  `Except.error`
carries the text of a Go `error`. -/
structure Deps where
  /-- The function `os.Getenv`: the empty string for a variable that is not set. -/
  Getenv : String → String
  /-- The function `untappd.Search`. -/
  Search : String → Except String SearchData
  /-- The function `untappd.Info`. -/
  Info : String → Except String InfoData
  /-- The constructor `slack.NewMessage()`. -/
  NewMessage : Message
  /-- The constructor `slack.NewEmptyMessage()`. -/
  NewEmptyMessage : Message
  /-- The constructor `slack.NewAction(id)`. -/
  NewAction : String → Action
  /-- The function `json.Marshal` at type `*slack.Message`. -/
  Marshal : Message → Except String String
  /-- The function `json.Unmarshal` into a zero `slack.ActionPayload`. -/
  Unmarshal : String → Except String ActionPayload

/-! ## Requests, responses, the world -/

/-- An inbound request: its parsed form, in order of appearance. -/
structure Request where
  Form : List (String × String) := []
deriving DecidableEq, Repr

/-- The method `r.FormValue(key)`: the first value for the key, or the empty
string when the key is absent. -/
def Request.FormValue (r : Request) (key : String) : String :=
  match r.Form.find? (fun kv => kv.1 == key) with
  | some kv => kv.2
  | none => ""

/-- A call to a collaborator, as recorded in the world. -/
inductive Call where
  /-- The call `next.ServeHTTP(w, r)` of the wrapped handler. -/
  | serveHTTP
  /-- The call `untappd.Search(q)`. -/
  | search (q : String)
  /-- The call `untappd.Info(id)`. -/
  | info (id : String)
deriving DecidableEq, Repr

/-- The state a handler acts on. -/
structure World where
  /-- The response header map. -/
  Header : List (String × String) := []
  /-- The status code of the response; `none` until the header is written. -/
  Code : Option Nat := none
  /-- The response body written so far. -/
  Body : String := ""
  /-- The lines written by `log.Printf`, oldest first. -/
  Logs : List String := []
  /-- The calls to collaborators, oldest first. -/
  Calls : List Call := []
deriving DecidableEq, Repr

/-- The world a handler starts in: nothing written, nothing logged, nothing called. -/
def World.fresh : World := {}

/-- The call `log.Printf(line)`. -/
def World.log (w : World) (line : String) : World :=
  { w with Logs := w.Logs ++ [line] }

/-- Record a call to a collaborator. -/
def World.call (w : World) (c : Call) : World :=
  { w with Calls := w.Calls ++ [c] }

/-- The call `w.Header().Set(key, value)`. -/
def World.setHeader (w : World) (key value : String) : World :=
  { w with Header := (key, value) :: w.Header.filter (fun kv => kv.1 != key) }

/-- The call `w.WriteHeader(code)`: the first status code written stands. -/
def World.WriteHeader (w : World) (code : Nat) : World :=
  match w.Code with
  | none => { w with Code := some code }
  | some _ => w

/-- The call `w.Write(b)`: writes status 200 first when no status was written. -/
def World.Write (w : World) (b : String) : World :=
  let w1 := w.WriteHeader 200
  { w1 with Body := w1.Body ++ b }

/-- The function `http.StatusText`, on the codes `slappd.go` uses. -/
def StatusText (code : Nat) : String :=
  if code = 200 then "OK"
  else if code = 400 then "Bad Request"
  else if code = 403 then "Forbidden"
  else if code = 500 then "Internal Server Error"
  else ""

/-- The function `http.Error(w, error, code)`: plain-text headers, the status
code, then the error text and a newline as the body. -/
def httpError (w : World) (error : String) (code : Nat) : World :=
  let w1 := w.setHeader "Content-Type" "text/plain; charset=utf-8"
  let w2 := w1.setHeader "X-Content-Type-Options" "nosniff"
  let w3 := w2.WriteHeader code
  w3.Write (error ++ "\n")

/-- How a handler ends: it returns, or it hits a runtime panic (which `net/http`
recovers by dropping the connection without a response). -/
inductive Outcome where
  | returned (w : World)
  | panicked (reason : String) (w : World)
deriving DecidableEq, Repr

/-- The world an outcome ends in. -/
def Outcome.world : Outcome → World
  | .returned w => w
  | .panicked _ w => w

/-- The type `http.Handler`. -/
abbrev Handler := Request → World → Outcome

/-! ## `strings.Split` on a one-byte separator -/

/-- The segments of a character list between occurrences of `sep`. -/
def splitChars (sep : Char) : List Char → List (List Char)
  | [] => [[]]
  | c :: cs =>
    if c = sep then [] :: splitChars sep cs
    else
      match splitChars sep cs with
      | [] => [[c]]
      | seg :: segs => (c :: seg) :: segs

/-- The function `strings.Split(s, sep)` for a separator of one character:
all substrings of `s` between occurrences of `sep`, in order. -/
def Split (s : String) (sep : Char) : List String :=
  (splitChars sep s.data).map String.mk

/-- The inverse of `splitChars`: the segments joined with `sep` between them. -/
def joinChars (sep : Char) : List (List Char) → List Char
  | [] => []
  | [seg] => seg
  | seg :: next :: segs => seg ++ sep :: joinChars sep (next :: segs)

/-! ## `isAuthorized` (`slappd.go` lines 25-67) -/

/-- The loop of lines 41-46: `authorized` becomes true when a segment equals `rt`. -/
def authorizedLoop (rt : String) : List String → Bool → Bool
  | [], authorized => authorized
  | t :: ts, authorized => authorizedLoop rt ts (if t = rt then true else authorized)

/-- The middleware `isAuthorized(next)`. -/
def isAuthorized (d : Deps) (next : Handler) : Handler := fun r w =>
  let st := d.Getenv "SLACK_TOKEN"
  if st = "" then
    .returned (httpError (w.log "missing environment variable: SLACK_TOKEN") (StatusText 500) 500)
  else
    let rt := r.FormValue "token"
    if rt = "" then
      .returned (httpError (w.log "missing form value: token") (StatusText 400) 400)
    else
      let authorized := authorizedLoop rt (Split st ',') false
      if !authorized then
        .returned (httpError w (StatusText 403) 403)
      else
        let u := r.FormValue "user_name"
        if u = "" then
          .returned (httpError (w.log "missing form value: user_name") (StatusText 400) 400)
        else if u = "slackbot" then
          .returned (w.WriteHeader 200)
        else
          next r (w.call .serveHTTP)

/-! ## Writing the JSON response (lines 100-108 and 147-155) -/

/-- The common tail of both handlers: marshal the message; on failure log and
answer 500, otherwise set the JSON content type and write the bytes. -/
def writeJSON (d : Deps) (msg : Message) (w : World) : World :=
  match d.Marshal msg with
  | .error err => httpError (w.log err) (StatusText 500) 500
  | .ok b => (w.setHeader "Content-Type" "application/json").Write b

/-! ## `selectHandler` (lines 69-109) -/

/-- The attachment of lines 93-97, built from a detail record. -/
def detailAttachment (id : InfoData) : Attachment :=
  { Title := id.Title, Text := id.Text, ImageURL := id.Response.Beer.Label }

/-- The handler `selectHandler`. -/
def selectHandler (d : Deps) : Handler := fun r w =>
  let payload := r.FormValue "payload"
  match d.Unmarshal payload with
  | .error err =>
    .returned (httpError (w.log ("invalid action json: " ++ err)) (StatusText 400) 400)
  | .ok action =>
    if action.CallbackID ≠ callbackID then
      .returned (httpError (w.log ("invalid callback_id: " ++ action.CallbackID))
        (StatusText 400) 400)
    else
      match action.Actions with
      | [] => .panicked "index out of range [0] with length 0" w
      | first :: _ =>
        let w1 := w.call (.info first.Value)
        match d.Info first.Value with
        | .error err => .returned (httpError (w1.log err) (StatusText 500) 500)
        | .ok id =>
          let msg := d.NewMessage
          let attachment := detailAttachment id
          let msg1 := { msg with Attachments := msg.Attachments ++ [attachment] }
          .returned (writeJSON d msg1 w1)

/-! ## `searchHandler` (lines 111-156) -/

/-- The attachment of lines 132-136, built from a search item. -/
def choiceAttachment (d : Deps) (item : Item) : Attachment :=
  { Title := item.Title, CallbackID := callbackID, Actions := [d.NewAction item.Beer.ID] }

/-- The loop of lines 129-142: count the item, append its attachment, stop when
the count reaches `MaxResults`. -/
def searchLoop (d : Deps) : List Item → Nat → Message → Message
  | [], _, msg => msg
  | item :: rest, count, msg =>
    let count1 := count + 1
    let msg1 := { msg with Attachments := msg.Attachments ++ [choiceAttachment d item] }
    if count1 = MaxResults then msg1 else searchLoop d rest count1 msg1

/-- The message built by lines 126-145 from a successful search. -/
def searchMessage (d : Deps) (ud : SearchData) : Message :=
  let msg := d.NewMessage
  if ud.Response.Beers.Items.length ≠ 0 then
    searchLoop d ud.Response.Beers.Items 0 msg
  else
    d.NewEmptyMessage

/-- The handler `searchHandler`. -/
def searchHandler (d : Deps) : Handler := fun r w =>
  let searchText := r.FormValue "text"
  if searchText = "" then
    .returned (httpError (w.log "missing form value: text") (StatusText 400) 400)
  else
    let w1 := w.call (.search searchText)
    match d.Search searchText with
    | .error err => .returned (httpError (w1.log err) (StatusText 500) 500)
    | .ok ud => .returned (writeJSON d (searchMessage d ud) w1)

/-! ## The route table of `main` (lines 169-170) -/

/-- The handler registered for the pattern "/". -/
def rootHandler (d : Deps) : Handler := isAuthorized d (searchHandler d)

/-- The handler registered for the pattern "/select". -/
def selectRoute (d : Deps) : Handler := selectHandler d

/-! ## Shapes of outbound messages -/

/-- A choice message: between one and `MaxResults` attachments, each carrying the
callback identifier and exactly one action. -/
def IsChoiceMessage (msg : Message) : Prop :=
  1 ≤ msg.Attachments.length ∧ msg.Attachments.length ≤ MaxResults ∧
    ∀ a ∈ msg.Attachments, a.CallbackID = callbackID ∧ a.Actions.length = 1

instance (msg : Message) : Decidable (IsChoiceMessage msg) := by
  unfold IsChoiceMessage; infer_instance

/-! ## A concrete deployment, used to run the handlers on explicit requests -/

/-- Modelled from the spec: the constructor `slack.NewMessage` (in
`internal/slack`): a fresh outbound message, which starts with no attachments. -/
def specNewMessage : Message := { Extra := "in_channel", Attachments := [] }

/-- Modelled from the spec: the constructor `slack.NewEmptyMessage` (in
`internal/slack`): the designated empty-result message, a single attachment
signalling no matches, with no actions. -/
def specNewEmptyMessage : Message :=
  { Extra := "in_channel", Attachments := [{ Title := "No Results Found" }] }

/-- Modelled from the spec: the constructor `slack.NewAction` (in
`internal/slack`): an action whose label is fixed and whose opaque value is the
item identifier. -/
def specNewAction (id : String) : Action := { Label := "Select", Value := id }

/-- A search item with the given identifier and title. -/
def mkItem (id title : String) : Item := { Beer := { ID := id }, DisplayTitle := title }

/-- Seven search items. -/
def sevenItems : List Item :=
  [mkItem "11" "Pale Ale", mkItem "12" "Porter", mkItem "13" "Stout", mkItem "14" "Saison",
   mkItem "15" "Pilsner", mkItem "16" "Lambic", mkItem "17" "Bock"]

/-- A search client: fails on "boom", finds nothing for "nothing", and returns
the seven items otherwise. -/
def sampleSearch (q : String) : Except String SearchData :=
  if q = "boom" then .error "untappd: search failed"
  else if q = "nothing" then .ok {}
  else .ok { Response := { Beers := { Items := sevenItems } } }

/-- A detail client: knows the item "123" only. -/
def sampleInfo (id : String) : Except String InfoData :=
  if id = "123" then
    .ok { Response := { Beer := { Label := "https://img.example/123.png" } },
          DisplayTitle := "Porter", DisplayText := "A dark beer." }
  else .error "untappd: info failed"

/-- An encoder that never fails: the titles of the attachments, in order. -/
def sampleMarshal (msg : Message) : Except String String :=
  .ok (String.intercalate ";" (msg.Attachments.map (fun a => a.Title)))

/-- A decoder defined on four payload texts. -/
def sampleUnmarshal (payload : String) : Except String ActionPayload :=
  if payload = "\x7b\"callback_id\":\"slappd\",\"actions\":[\x7b\"value\":\"123\"\x7d]\x7d" then
    .ok { Actions := [{ Label := "", Value := "123" }], CallbackID := "slappd" }
  else if payload =
      "\x7b\"callback_id\":\"slappd\",\"actions\":[\x7b\"value\":\"123\"\x7d,\x7b\"value\":\"9\"\x7d]\x7d" then
    .ok { Actions := [{ Label := "", Value := "123" }, { Label := "", Value := "9" }],
          CallbackID := "slappd" }
  else if payload = "\x7b\"callback_id\":\"slappd\",\"actions\":[]\x7d" then
    .ok { Actions := [], CallbackID := "slappd" }
  else if payload = "\x7b\"callback_id\":\"other\",\"actions\":[]\x7d" then
    .ok { Actions := [], CallbackID := "other" }
  else .error "invalid character"

/-- A deployment whose accepted tokens are "alpha" and "beta". -/
def sampleDeps : Deps where
  Getenv := fun name => if name = "SLACK_TOKEN" then "alpha,beta" else ""
  Search := sampleSearch
  Info := sampleInfo
  NewMessage := specNewMessage
  NewEmptyMessage := specNewEmptyMessage
  NewAction := specNewAction
  Marshal := sampleMarshal
  Unmarshal := sampleUnmarshal

/-- The same deployment with no `SLACK_TOKEN` in the environment. -/
def unconfiguredDeps : Deps := { sampleDeps with Getenv := fun _ => "" }

/-- A slash-command request with the given token, user name and text; an empty
string stands for a field that is left out. -/
def mkRequest (token user text : String) : Request :=
  { Form := ([("token", token), ("user_name", user), ("text", text)]).filter
      (fun kv => kv.2 != "") }

/-- A selection request carrying the given payload. -/
def mkSelect (payload : String) : Request := { Form := [("payload", payload)] }

end Slappd

namespace Slappd

/-! ## Facts about the world operations -/

theorem WriteHeader_calls (w : World) (code : Nat) : (w.WriteHeader code).Calls = w.Calls := by
  unfold World.WriteHeader; cases w.Code <;> rfl

theorem WriteHeader_body (w : World) (code : Nat) : (w.WriteHeader code).Body = w.Body := by
  unfold World.WriteHeader; cases w.Code <;> rfl

theorem WriteHeader_code (w : World) (code : Nat) (h : w.Code = none) :
    (w.WriteHeader code).Code = some code := by
  unfold World.WriteHeader; rw [h]

theorem Write_calls (w : World) (b : String) : (w.Write b).Calls = w.Calls := by
  simp [World.Write, WriteHeader_calls]

theorem Write_body (w : World) (b : String) : (w.Write b).Body = w.Body ++ b := by
  simp [World.Write, WriteHeader_body]

theorem Write_code (w : World) (b : String) (h : w.Code = none) :
    (w.Write b).Code = some 200 := by
  simp [World.Write, WriteHeader_code, h]

theorem httpError_calls (w : World) (error : String) (code : Nat) :
    (httpError w error code).Calls = w.Calls := by
  simp [httpError, Write_calls, WriteHeader_calls, World.setHeader]

theorem httpError_body (w : World) (error : String) (code : Nat) :
    (httpError w error code).Body = w.Body ++ (error ++ "\n") := by
  simp [httpError, Write_body, WriteHeader_body, World.setHeader]

theorem httpError_code (w : World) (error : String) (code : Nat) (h : w.Code = none) :
    (httpError w error code).Code = some code := by
  simp [httpError, World.Write, World.WriteHeader, World.setHeader, h]

/-! ## Facts about `Split` -/

theorem splitChars_ne_nil (sep : Char) (cs : List Char) : splitChars sep cs ≠ [] := by
  cases cs with
  | nil => simp [splitChars]
  | cons c cs =>
    unfold splitChars
    split
    · simp
    · split <;> simp

/-- Joining the segments with the separator gives the text back. -/
theorem joinChars_splitChars (sep : Char) (cs : List Char) :
    joinChars sep (splitChars sep cs) = cs := by
  induction cs with
  | nil => simp [splitChars, joinChars]
  | cons c cs ih =>
    unfold splitChars
    by_cases hc : c = sep
    · simp only [hc, if_true]
      cases hs : splitChars sep cs with
      | nil => exact absurd hs (splitChars_ne_nil sep cs)
      | cons seg segs =>
        rw [hs] at ih
        simp [joinChars, ih]
    · simp only [hc, if_false]
      cases hs : splitChars sep cs with
      | nil => exact absurd hs (splitChars_ne_nil sep cs)
      | cons seg segs =>
        rw [hs] at ih
        cases segs with
        | nil =>
          simp only [joinChars] at ih ⊢
          rw [ih]
        | cons next segs =>
          simp only [joinChars] at ih ⊢
          rw [← ih]
          simp

/-- No segment contains the separator. -/
theorem splitChars_no_sep (sep : Char) (cs : List Char) :
    ∀ seg ∈ splitChars sep cs, sep ∉ seg := by
  induction cs with
  | nil => simp [splitChars]
  | cons c cs ih =>
    unfold splitChars
    by_cases hc : c = sep
    · simp only [hc, if_true]
      intro seg hseg
      rcases List.mem_cons.1 hseg with h | h
      · simp [h]
      · exact ih seg h
    · simp only [hc, if_false]
      cases hs : splitChars sep cs with
      | nil => exact absurd hs (splitChars_ne_nil sep cs)
      | cons seg0 segs =>
        rw [hs] at ih
        intro seg hseg
        rcases List.mem_cons.1 hseg with h | h
        · rw [h]
          intro hmem
          rcases List.mem_cons.1 hmem with h1 | h1
          · exact hc h1.symm
          · exact ih seg0 (by simp) h1
        · exact ih seg (by simp [h])

theorem Split_examples :
    Split "alpha,beta" ',' = ["alpha", "beta"] ∧ Split "" ',' = [""] ∧
      Split "a,,b," ',' = ["a", "", "b", ""] ∧ Split "alpha" ',' = ["alpha"] := by
  decide

/-! ## Facts about the two loops -/

/-- The authorization loop computes membership of the request token among the segments. -/
theorem authorizedLoop_eq (rt : String) (ts : List String) (authorized : Bool) :
    authorizedLoop rt ts authorized = (authorized || decide (rt ∈ ts)) := by
  induction ts generalizing authorized with
  | nil => simp [authorizedLoop]
  | cons t ts ih =>
    rw [authorizedLoop, ih]
    by_cases h : t = rt
    · simp [h]
    · have h' : ¬ rt = t := fun e => h e.symm
      simp [h, h']

theorem authorizedLoop_true_iff (rt : String) (ts : List String) :
    authorizedLoop rt ts false = true ↔ rt ∈ ts := by
  simp [authorizedLoop_eq]

/-- The search loop, entered below the cap, appends the attachments of the first
`MaxResults - count` items, in order. -/
theorem searchLoop_eq (d : Deps) (items : List Item) (count : Nat) (msg : Message)
    (h : count < MaxResults) :
    searchLoop d items count msg =
      { msg with Attachments :=
          msg.Attachments ++ (items.take (MaxResults - count)).map (choiceAttachment d) } := by
  induction items generalizing count msg with
  | nil => simp [searchLoop]
  | cons item rest ih =>
    rw [searchLoop]
    by_cases hc : count + 1 = MaxResults
    · have h1 : MaxResults - count = 1 := by omega
      simp [hc, h1]
    · have h2 : count + 1 < MaxResults := by omega
      have h3 : MaxResults - count = (MaxResults - (count + 1)) + 1 := by omega
      simp only [hc, if_false]
      rw [ih (count + 1) _ h2, h3, List.take_succ_cons, List.map_cons]
      simp

/-- The attachments of the message built from a non-empty search result. -/
theorem searchMessage_attachments (d : Deps) (ud : SearchData)
    (h : ud.Response.Beers.Items ≠ []) :
    searchMessage d ud =
      { d.NewMessage with Attachments :=
          d.NewMessage.Attachments ++
            (ud.Response.Beers.Items.take MaxResults).map (choiceAttachment d) } := by
  have hlen : ud.Response.Beers.Items.length ≠ 0 := by
    simpa [List.length_eq_zero] using h
  unfold searchMessage
  simp only [hlen, ne_eq, not_false_eq_true, if_true]
  rw [searchLoop_eq d _ 0 _ (by decide)]
  simp

/-! ## The request authorizer -/

/-- C2: on a response not yet written, with a non-empty `SLACK_TOKEN`, a non-empty
request token and a non-empty user name other than "slackbot", `isAuthorized` hands the request to the wrapped
handler (one call, in a world where it has written and logged nothing itself)
when the request token equals one of the segments of `SLACK_TOKEN` split on ",";
when it equals none of them the response is the 403 error, the result does not
depend on the wrapped handler and no call is recorded. -/
theorem isAuthorized_delegates_iff_token_accepted (d : Deps) (next : Handler)
    (r : Request) (w : World)
    (hw : w.Code = none)
    (hst : d.Getenv "SLACK_TOKEN" ≠ "")
    (hrt : r.FormValue "token" ≠ "")
    (hu : r.FormValue "user_name" ≠ "")
    (hbot : r.FormValue "user_name" ≠ "slackbot") :
    (r.FormValue "token" ∈ Split (d.Getenv "SLACK_TOKEN") ',' →
        isAuthorized d next r w = next r (w.call .serveHTTP) ∧
        (w.call .serveHTTP).Calls = w.Calls ++ [Call.serveHTTP] ∧
        (w.call .serveHTTP).Code = none ∧
        (w.call .serveHTTP).Body = w.Body ∧
        (w.call .serveHTTP).Header = w.Header ∧
        (w.call .serveHTTP).Logs = w.Logs) ∧
    (r.FormValue "token" ∉ Split (d.Getenv "SLACK_TOKEN") ',' →
        isAuthorized d next r w = .returned (httpError w (StatusText 403) 403) ∧
        (isAuthorized d next r w).world.Code = some 403 ∧
        (isAuthorized d next r w).world.Calls = w.Calls) := by
  constructor
  · intro hmem
    have hloop := (authorizedLoop_true_iff _ _).2 hmem
    refine ⟨?_, rfl, hw, rfl, rfl, rfl⟩
    simp [isAuthorized, hst, hrt, hu, hbot, hloop]
  · intro hmem
    have hloop : authorizedLoop (r.FormValue "token")
        (Split (d.Getenv "SLACK_TOKEN") ',') false = false := by
      cases h : authorizedLoop (r.FormValue "token") (Split (d.Getenv "SLACK_TOKEN") ',') false
      · rfl
      · exact absurd ((authorizedLoop_true_iff _ _).1 h) hmem
    have heq : isAuthorized d next r w = .returned (httpError w (StatusText 403) 403) := by
      simp [isAuthorized, hst, hrt, hloop]
    refine ⟨heq, ?_, ?_⟩
    · rw [heq]; exact httpError_code w _ _ hw
    · rw [heq]; exact httpError_calls w _ _

/-- Witness of C2 on the sample deployment: token "beta" is accepted and the
request reaches the search handler; token "gamma" is refused with 403. -/
theorem isAuthorized_delegates_iff_token_accepted_witness :
    isAuthorized sampleDeps (searchHandler sampleDeps) (mkRequest "beta" "alice" "ipa")
        World.fresh =
      searchHandler sampleDeps (mkRequest "beta" "alice" "ipa")
        (World.fresh.call .serveHTTP) ∧
    (isAuthorized sampleDeps (searchHandler sampleDeps) (mkRequest "gamma" "alice" "ipa")
        World.fresh).world.Code = some 403 :=
  ⟨((isAuthorized_delegates_iff_token_accepted sampleDeps (searchHandler sampleDeps)
      (mkRequest "beta" "alice" "ipa") World.fresh rfl (by decide) (by decide) (by decide)
      (by decide)).1 (by decide)).1,
   ((isAuthorized_delegates_iff_token_accepted sampleDeps (searchHandler sampleDeps)
      (mkRequest "gamma" "alice" "ipa") World.fresh rfl (by decide) (by decide) (by decide)
      (by decide)).2 (by decide)).2.1⟩

/-- C3, as stated, fails: a "slackbot" request that leaves out the token is
answered 400, not 200. -/
theorem slackbot_without_token_is_400 :
    (mkRequest "" "slackbot" "ipa").FormValue "user_name" = "slackbot" ∧
    isAuthorized sampleDeps (searchHandler sampleDeps) (mkRequest "" "slackbot" "ipa")
        World.fresh =
      .returned (httpError (World.fresh.log "missing form value: token") "Bad Request" 400) ∧
    (isAuthorized sampleDeps (searchHandler sampleDeps) (mkRequest "" "slackbot" "ipa")
        World.fresh).world.Code = some 400 ∧
    ¬ ((isAuthorized sampleDeps (searchHandler sampleDeps) (mkRequest "" "slackbot" "ipa")
        World.fresh).world.Code = some 200 ∧
       (isAuthorized sampleDeps (searchHandler sampleDeps) (mkRequest "" "slackbot" "ipa")
        World.fresh).world.Body = "") := by
  decide

/-- C3, amended: on a response not yet written, a request whose user name is
"slackbot" never reaches the wrapped
handler (the handler returns, the result is the same for every wrapped handler,
and no call is recorded); it is answered 200 with nothing written to the body
when `SLACK_TOKEN` is non-empty and the request token is non-empty and equal to
one of its segments, and otherwise 500 (no `SLACK_TOKEN`), 400 (no token) or 403
(token not accepted), as for any other user. -/
theorem isAuthorized_slackbot (d : Deps) (next : Handler) (r : Request) (w : World)
    (hw : w.Code = none)
    (hbot : r.FormValue "user_name" = "slackbot") :
    (∀ other : Handler, isAuthorized d next r w = isAuthorized d other r w) ∧
    (∃ w1, isAuthorized d next r w = .returned w1 ∧ w1.Calls = w.Calls) ∧
    (d.Getenv "SLACK_TOKEN" ≠ "" → r.FormValue "token" ≠ "" →
      r.FormValue "token" ∈ Split (d.Getenv "SLACK_TOKEN") ',' →
        isAuthorized d next r w = .returned (w.WriteHeader 200) ∧
        (isAuthorized d next r w).world.Code = some 200 ∧
        (isAuthorized d next r w).world.Body = w.Body) ∧
    (d.Getenv "SLACK_TOKEN" = "" → (isAuthorized d next r w).world.Code = some 500) ∧
    (d.Getenv "SLACK_TOKEN" ≠ "" → r.FormValue "token" = "" →
        (isAuthorized d next r w).world.Code = some 400) ∧
    (d.Getenv "SLACK_TOKEN" ≠ "" → r.FormValue "token" ≠ "" →
      r.FormValue "token" ∉ Split (d.Getenv "SLACK_TOKEN") ',' →
        (isAuthorized d next r w).world.Code = some 403) := by
  have hne : ("slackbot" : String) ≠ "" := by decide
  refine ⟨?_, ?_, ?_, ?_, ?_, ?_⟩
  · intro other
    simp only [isAuthorized, hbot]
    split
    · rfl
    · split
      · rfl
      · split
        · rfl
        · simp [hne]
  · simp only [isAuthorized, hbot]
    split
    · exact ⟨_, rfl, by simp [httpError_calls, World.log]⟩
    · split
      · exact ⟨_, rfl, by simp [httpError_calls, World.log]⟩
      · split
        · exact ⟨_, rfl, by simp [httpError_calls]⟩
        · simp [hne, WriteHeader_calls]
  · intro hst hrt hmem
    have hloop := (authorizedLoop_true_iff _ _).2 hmem
    have heq : isAuthorized d next r w = .returned (w.WriteHeader 200) := by
      simp [isAuthorized, hst, hrt, hbot, hloop]
    refine ⟨heq, ?_, ?_⟩
    · rw [heq]; exact WriteHeader_code w _ hw
    · rw [heq]; exact WriteHeader_body w _
  · intro hst
    have heq : isAuthorized d next r w = .returned (httpError
        (w.log "missing environment variable: SLACK_TOKEN") (StatusText 500) 500) := by
      simp [isAuthorized, hst]
    rw [heq]; exact httpError_code _ _ _ hw
  · intro hst hrt
    have heq : isAuthorized d next r w = .returned (httpError
        (w.log "missing form value: token") (StatusText 400) 400) := by
      simp [isAuthorized, hst, hrt]
    rw [heq]; exact httpError_code _ _ _ hw
  · intro hst hrt hmem
    have hloop : authorizedLoop (r.FormValue "token")
        (Split (d.Getenv "SLACK_TOKEN") ',') false = false := by
      cases h : authorizedLoop (r.FormValue "token") (Split (d.Getenv "SLACK_TOKEN") ',') false
      · rfl
      · exact absurd ((authorizedLoop_true_iff _ _).1 h) hmem
    have heq : isAuthorized d next r w = .returned (httpError w (StatusText 403) 403) := by
      simp [isAuthorized, hst, hrt, hloop]
    rw [heq]; exact httpError_code _ _ _ hw

/-- Witness of the amended C3: "slackbot" with the accepted token "alpha" is
answered 200 with an empty body and no call. -/
theorem isAuthorized_slackbot_witness :
    isAuthorized sampleDeps (searchHandler sampleDeps) (mkRequest "alpha" "slackbot" "ipa")
        World.fresh = .returned (World.fresh.WriteHeader 200) ∧
    (isAuthorized sampleDeps (searchHandler sampleDeps) (mkRequest "alpha" "slackbot" "ipa")
        World.fresh).world.Code = some 200 ∧
    (isAuthorized sampleDeps (searchHandler sampleDeps) (mkRequest "alpha" "slackbot" "ipa")
        World.fresh).world.Body = World.fresh.Body :=
  (isAuthorized_slackbot sampleDeps (searchHandler sampleDeps)
    (mkRequest "alpha" "slackbot" "ipa") World.fresh rfl (by decide)).2.2.1
    (by decide) (by decide) (by decide)

/-- C4, as stated, fails: a request that leaves out `user_name` and carries the
token "gamma", which is not accepted, is answered 403, not 400. -/
theorem missing_user_with_bad_token_is_403 :
    sampleDeps.Getenv "SLACK_TOKEN" ≠ "" ∧
    (mkRequest "gamma" "" "ipa").FormValue "user_name" = "" ∧
    (mkRequest "gamma" "" "ipa").FormValue "token" ∉ Split (sampleDeps.Getenv "SLACK_TOKEN") ',' ∧
    isAuthorized sampleDeps (searchHandler sampleDeps) (mkRequest "gamma" "" "ipa")
        World.fresh = .returned (httpError World.fresh "Forbidden" 403) ∧
    (isAuthorized sampleDeps (searchHandler sampleDeps) (mkRequest "gamma" "" "ipa")
        World.fresh).world.Code = some 403 ∧
    (isAuthorized sampleDeps (searchHandler sampleDeps) (mkRequest "gamma" "" "ipa")
        World.fresh).world.Code ≠ some 400 := by
  decide

/-- C4, amended: on a response not yet written and with a non-empty
`SLACK_TOKEN`, a request that leaves out the token is answered 400, and a request that leaves out `user_name` is answered 400
when its token is accepted and 403 when its token is non-empty and not accepted;
in all three cases the wrapped handler is not called. -/
theorem isAuthorized_missing_field (d : Deps) (next : Handler) (r : Request) (w : World)
    (hw : w.Code = none)
    (hst : d.Getenv "SLACK_TOKEN" ≠ "") :
    (r.FormValue "token" = "" →
        isAuthorized d next r w =
          .returned (httpError (w.log "missing form value: token") (StatusText 400) 400) ∧
        (isAuthorized d next r w).world.Code = some 400 ∧
        (isAuthorized d next r w).world.Calls = w.Calls) ∧
    (r.FormValue "user_name" = "" → r.FormValue "token" ≠ "" →
      r.FormValue "token" ∈ Split (d.Getenv "SLACK_TOKEN") ',' →
        isAuthorized d next r w =
          .returned (httpError (w.log "missing form value: user_name") (StatusText 400) 400) ∧
        (isAuthorized d next r w).world.Code = some 400 ∧
        (isAuthorized d next r w).world.Calls = w.Calls) ∧
    (r.FormValue "user_name" = "" → r.FormValue "token" ≠ "" →
      r.FormValue "token" ∉ Split (d.Getenv "SLACK_TOKEN") ',' →
        isAuthorized d next r w = .returned (httpError w (StatusText 403) 403) ∧
        (isAuthorized d next r w).world.Code = some 403 ∧
        (isAuthorized d next r w).world.Calls = w.Calls) := by
  refine ⟨?_, ?_, ?_⟩
  · intro hrt
    have heq : isAuthorized d next r w = .returned (httpError
        (w.log "missing form value: token") (StatusText 400) 400) := by
      simp [isAuthorized, hst, hrt]
    refine ⟨heq, ?_, ?_⟩
    · rw [heq]; exact httpError_code _ _ _ hw
    · rw [heq]; simp [Outcome.world, httpError_calls, World.log]
  · intro hu hrt hmem
    have hloop := (authorizedLoop_true_iff _ _).2 hmem
    have heq : isAuthorized d next r w = .returned (httpError
        (w.log "missing form value: user_name") (StatusText 400) 400) := by
      simp [isAuthorized, hst, hrt, hu, hloop]
    refine ⟨heq, ?_, ?_⟩
    · rw [heq]; exact httpError_code _ _ _ hw
    · rw [heq]; simp [Outcome.world, httpError_calls, World.log]
  · intro _ hrt hmem
    have hloop : authorizedLoop (r.FormValue "token")
        (Split (d.Getenv "SLACK_TOKEN") ',') false = false := by
      cases h : authorizedLoop (r.FormValue "token") (Split (d.Getenv "SLACK_TOKEN") ',') false
      · rfl
      · exact absurd ((authorizedLoop_true_iff _ _).1 h) hmem
    have heq : isAuthorized d next r w = .returned (httpError w (StatusText 403) 403) := by
      simp [isAuthorized, hst, hrt, hloop]
    refine ⟨heq, ?_, ?_⟩
    · rw [heq]; exact httpError_code _ _ _ hw
    · rw [heq]; exact httpError_calls w _ _

/-- Witness of the amended C4: no token gives 400; no user name with the accepted
token "alpha" gives 400. -/
theorem isAuthorized_missing_field_witness :
    (isAuthorized sampleDeps (searchHandler sampleDeps) (mkRequest "" "alice" "ipa")
        World.fresh).world.Code = some 400 ∧
    (isAuthorized sampleDeps (searchHandler sampleDeps) (mkRequest "alpha" "" "ipa")
        World.fresh).world.Code = some 400 :=
  ⟨((isAuthorized_missing_field sampleDeps (searchHandler sampleDeps)
      (mkRequest "" "alice" "ipa") World.fresh rfl (by decide)).1 (by decide)).2.1,
   ((isAuthorized_missing_field sampleDeps (searchHandler sampleDeps)
      (mkRequest "alpha" "" "ipa") World.fresh rfl (by decide)).2.1
      (by decide) (by decide) (by decide)).2.1⟩

/-- C5: on a response not yet written, when `SLACK_TOKEN` is empty, every request (any token, any user name,
"slackbot" included) is answered by `http.Error` with the standard status text
of 500 and the status 500, and the wrapped handler is not called: the result is
the same for every wrapped handler and records no call. -/
theorem isAuthorized_fails_closed (d : Deps) (next : Handler) (r : Request) (w : World)
    (hw : w.Code = none)
    (hst : d.Getenv "SLACK_TOKEN" = "") :
    isAuthorized d next r w =
      .returned (httpError (w.log "missing environment variable: SLACK_TOKEN")
        (StatusText 500) 500) ∧
    StatusText 500 = "Internal Server Error" ∧
    (isAuthorized d next r w).world.Code = some 500 ∧
    (isAuthorized d next r w).world.Body = w.Body ++ "Internal Server Error\n" ∧
    (isAuthorized d next r w).world.Calls = w.Calls ∧
    (∀ other : Handler, isAuthorized d next r w = isAuthorized d other r w) := by
  have heq : ∀ h : Handler, isAuthorized d h r w = .returned (httpError
      (w.log "missing environment variable: SLACK_TOKEN") (StatusText 500) 500) := by
    intro h
    simp [isAuthorized, hst]
  refine ⟨heq next, by decide, ?_, ?_, ?_, ?_⟩
  · rw [heq]; exact httpError_code _ _ _ hw
  · rw [heq]
    show (httpError _ _ _).Body = _
    rw [httpError_body]
    rfl
  · rw [heq]; simp [Outcome.world, httpError_calls, World.log]
  · intro other
    rw [heq, heq]

/-- Witness of C5: without `SLACK_TOKEN`, "slackbot" with any token is answered
500 with the status text as body. -/
theorem isAuthorized_fails_closed_witness :
    (isAuthorized unconfiguredDeps (searchHandler unconfiguredDeps)
        (mkRequest "alpha" "slackbot" "ipa") World.fresh).world.Code = some 500 ∧
    (isAuthorized unconfiguredDeps (searchHandler unconfiguredDeps)
        (mkRequest "alpha" "slackbot" "ipa") World.fresh).world.Body =
      World.fresh.Body ++ "Internal Server Error\n" :=
  ⟨(isAuthorized_fails_closed unconfiguredDeps (searchHandler unconfiguredDeps)
      (mkRequest "alpha" "slackbot" "ipa") World.fresh rfl (by decide)).2.2.1,
   (isAuthorized_fails_closed unconfiguredDeps (searchHandler unconfiguredDeps)
      (mkRequest "alpha" "slackbot" "ipa") World.fresh rfl (by decide)).2.2.2.1⟩

/-! ## The command handler -/

theorem writeJSON_calls (d : Deps) (msg : Message) (w : World) :
    (writeJSON d msg w).Calls = w.Calls := by
  unfold writeJSON
  cases d.Marshal msg <;> simp [httpError_calls, Write_calls, World.log, World.setHeader]

theorem writeJSON_ok (d : Deps) (msg : Message) (w : World) (b : String)
    (hw : w.Code = none) (hb : d.Marshal msg = .ok b) :
    (writeJSON d msg w).Code = some 200 ∧ (writeJSON d msg w).Body = w.Body ++ b ∧
      (writeJSON d msg w).Header.lookup "Content-Type" = some "application/json" := by
  unfold writeJSON
  rw [hb]
  refine ⟨?_, ?_, ?_⟩
  · exact Write_code _ _ (by simpa [World.setHeader] using hw)
  · simp [Write_body, World.setHeader]
  · simp [World.Write, World.WriteHeader, World.setHeader, hw, List.lookup]

theorem searchHandler_ok (d : Deps) (r : Request) (w : World) (ud : SearchData)
    (htext : r.FormValue "text" ≠ "")
    (hsearch : d.Search (r.FormValue "text") = .ok ud) :
    searchHandler d r w =
      .returned (writeJSON d (searchMessage d ud) (w.call (.search (r.FormValue "text")))) := by
  simp [searchHandler, htext, hsearch]

/-- C1: for a search result with n ≥ 1 items, with `slack.NewMessage` starting
without attachments and `slack.NewAction` storing the identifier as the value,
`searchHandler` serialises a message with exactly min(n, 5) attachments; for
every i below that, the i-th attachment has the title of the i-th item, the
callback identifier "slappd" and exactly one action, whose value is the item's
`Beer.ID`.  Seven items give the five attachments of the first five items.  When
the encoder succeeds on a response not yet written, the response is 200 with the
encoded message as body. -/
theorem searchHandler_renders_first_five (d : Deps) (r : Request) (w : World)
    (ud : SearchData)
    (htext : r.FormValue "text" ≠ "")
    (hsearch : d.Search (r.FormValue "text") = .ok ud)
    (hn : 1 ≤ ud.Response.Beers.Items.length)
    (hnew : d.NewMessage.Attachments = [])
    (hact : ∀ id, (d.NewAction id).Value = id) :
    searchHandler d r w =
      .returned (writeJSON d (searchMessage d ud) (w.call (.search (r.FormValue "text")))) ∧
    (searchMessage d ud).Attachments.length = min ud.Response.Beers.Items.length MaxResults ∧
    (∀ i, i < min ud.Response.Beers.Items.length MaxResults →
      ∃ item a, ud.Response.Beers.Items[i]? = some item ∧
        (searchMessage d ud).Attachments[i]? = some a ∧
        a.Title = item.Title ∧ a.CallbackID = "slappd" ∧
        ∃ act, a.Actions = [act] ∧ act.Value = item.Beer.ID) ∧
    (ud.Response.Beers.Items.length = 7 →
      (searchMessage d ud).Attachments.length = 5 ∧
      (searchMessage d ud).Attachments =
        (ud.Response.Beers.Items.take 5).map (choiceAttachment d)) ∧
    (∀ b, d.Marshal (searchMessage d ud) = .ok b → w.Code = none →
      (searchHandler d r w).world.Code = some 200 ∧
      (searchHandler d r w).world.Body = w.Body ++ b) := by
  have hne : ud.Response.Beers.Items ≠ [] := by
    intro h; rw [h] at hn; simp at hn
  have hatt : (searchMessage d ud).Attachments =
      (ud.Response.Beers.Items.take MaxResults).map (choiceAttachment d) := by
    rw [searchMessage_attachments d ud hne]
    simp [hnew]
  refine ⟨searchHandler_ok d r w ud htext hsearch, ?_, ?_, ?_, ?_⟩
  · rw [hatt, List.length_map, List.length_take, Nat.min_comm]
  · intro i hi
    have hi1 : i < ud.Response.Beers.Items.length := lt_of_lt_of_le hi (Nat.min_le_left _ _)
    have hi2 : i < MaxResults := lt_of_lt_of_le hi (Nat.min_le_right _ _)
    refine ⟨ud.Response.Beers.Items[i], choiceAttachment d ud.Response.Beers.Items[i],
      List.getElem?_eq_getElem hi1, ?_, rfl, rfl, d.NewAction _, rfl, hact _⟩
    rw [hatt, List.getElem?_map, List.getElem?_take_of_lt hi2, List.getElem?_eq_getElem hi1]
    rfl
  · intro h7
    refine ⟨?_, ?_⟩
    · rw [hatt, List.length_map, List.length_take, h7]; rfl
    · rw [hatt]; rfl
  · intro b hb hw
    rw [searchHandler_ok d r w ud htext hsearch]
    have := writeJSON_ok d (searchMessage d ud) (w.call (.search (r.FormValue "text"))) b hw hb
    exact ⟨this.1, this.2.1⟩

/-- Witness of C1 on the sample deployment: the query "ipa" returns seven items
and the message has five attachments. -/
theorem searchHandler_renders_first_five_witness :
    (searchMessage sampleDeps
        { Response := { Beers := { Items := sevenItems } } }).Attachments.length = 5 ∧
    (searchMessage sampleDeps { Response := { Beers := { Items := sevenItems } } }).Attachments =
      (sevenItems.take 5).map (choiceAttachment sampleDeps) :=
  (searchHandler_renders_first_five sampleDeps (mkRequest "alpha" "alice" "ipa") World.fresh
    { Response := { Beers := { Items := sevenItems } } }
    (by decide) rfl (by decide) (by decide) (fun _ => rfl)).2.2.2.1 (by decide)

theorem writeJSON_error (d : Deps) (msg : Message) (w : World) (err : String)
    (hw : w.Code = none) (he : d.Marshal msg = .error err) :
    (writeJSON d msg w).Code = some 500 ∧
      (writeJSON d msg w).Body = w.Body ++ "Internal Server Error\n" := by
  unfold writeJSON
  rw [he]
  refine ⟨httpError_code _ _ _ hw, ?_⟩
  rw [httpError_body]
  rfl

/-- C6: for a request with non-empty text whose search succeeds with zero items,
the message `searchHandler` hands to `json.Marshal` is `slack.NewEmptyMessage()`
itself: when the encoder succeeds on a response not yet written, the response is
200 with the JSON content type and exactly the encoding of the empty-result
message as body (500 when the encoder fails), after the one call
`Search(text)`.  Neither `slack.NewMessage` nor `slack.NewAction` has any part in
it: replacing them changes neither the message nor the outcome, and the
attachments are those of the empty-result message, none added.  With the
empty-result message carrying no action, the serialised message holds no action
and no choice attachment, for any `slack.NewAction`. -/
theorem searchHandler_empty_result (d : Deps) (r : Request) (w : World) (ud : SearchData)
    (htext : r.FormValue "text" ≠ "")
    (hsearch : d.Search (r.FormValue "text") = .ok ud)
    (hzero : ud.Response.Beers.Items.length = 0) :
    searchMessage d ud = d.NewEmptyMessage ∧
    searchHandler d r w =
      .returned (writeJSON d d.NewEmptyMessage (w.call (.search (r.FormValue "text")))) ∧
    (∀ b, d.Marshal d.NewEmptyMessage = .ok b → w.Code = none →
      (searchHandler d r w).world.Code = some 200 ∧
      (searchHandler d r w).world.Body = w.Body ++ b ∧
      (searchHandler d r w).world.Header.lookup "Content-Type" = some "application/json") ∧
    (∀ err, d.Marshal d.NewEmptyMessage = .error err → w.Code = none →
      (searchHandler d r w).world.Code = some 500 ∧
      (searchHandler d r w).world.Body = w.Body ++ "Internal Server Error\n") ∧
    (searchHandler d r w).world.Calls = w.Calls ++ [Call.search (r.FormValue "text")] ∧
    (∀ (m : Message) (f : String → Action),
      searchMessage { d with NewMessage := m, NewAction := f } ud = d.NewEmptyMessage ∧
      searchHandler { d with NewMessage := m, NewAction := f } r w = searchHandler d r w) ∧
    (searchMessage d ud).Attachments = d.NewEmptyMessage.Attachments ∧
    ((∀ a ∈ d.NewEmptyMessage.Attachments, a.Actions = []) →
      (∀ a ∈ (searchMessage d ud).Attachments, a.Actions = []) ∧
      (∀ (f : String → Action) (item : Item),
        choiceAttachment { d with NewAction := f } item ∉ (searchMessage d ud).Attachments)) := by
  have hmsg : ∀ d1 : Deps, searchMessage d1 ud = d1.NewEmptyMessage := by
    intro d1
    simp [searchMessage, hzero]
  have heq : searchHandler d r w =
      .returned (writeJSON d d.NewEmptyMessage (w.call (.search (r.FormValue "text")))) := by
    rw [searchHandler_ok d r w ud htext hsearch, hmsg d]
  refine ⟨hmsg d, heq, ?_, ?_, ?_, ?_, by rw [hmsg d], ?_⟩
  · intro b hb hw
    rw [heq]
    exact writeJSON_ok d _ (w.call (.search (r.FormValue "text"))) b hw hb
  · intro err he hw
    rw [heq]
    exact writeJSON_error d _ (w.call (.search (r.FormValue "text"))) err hw he
  · rw [heq]
    simp [Outcome.world, writeJSON_calls, World.call]
  · intro m f
    refine ⟨hmsg _, ?_⟩
    rw [heq, searchHandler_ok { d with NewMessage := m, NewAction := f } r w ud htext hsearch,
      hmsg]
    rfl
  · intro hempty
    refine ⟨by rw [hmsg d]; exact hempty, ?_⟩
    intro f item hmem
    rw [hmsg d] at hmem
    have := hempty _ hmem
    simp [choiceAttachment] at this

/-- Witness of C6 on the sample deployment: the query "nothing" returns zero
items; the response is 200 with the encoding of the empty-result message, "No
Results Found", as body, and the message holds no action. -/
theorem searchHandler_empty_result_witness :
    (searchHandler sampleDeps (mkRequest "alpha" "alice" "nothing") World.fresh).world.Code =
      some 200 ∧
    (searchHandler sampleDeps (mkRequest "alpha" "alice" "nothing") World.fresh).world.Body =
      World.fresh.Body ++ "No Results Found" ∧
    (searchHandler sampleDeps (mkRequest "alpha" "alice" "nothing")
      World.fresh).world.Header.lookup "Content-Type" = some "application/json" ∧
    (∀ a ∈ (searchMessage sampleDeps {}).Attachments, a.Actions = []) :=
  ⟨((searchHandler_empty_result sampleDeps (mkRequest "alpha" "alice" "nothing") World.fresh {}
      (by decide) rfl (by decide)).2.2.1 "No Results Found" rfl rfl).1,
   ((searchHandler_empty_result sampleDeps (mkRequest "alpha" "alice" "nothing") World.fresh {}
      (by decide) rfl (by decide)).2.2.1 "No Results Found" rfl rfl).2.1,
   ((searchHandler_empty_result sampleDeps (mkRequest "alpha" "alice" "nothing") World.fresh {}
      (by decide) rfl (by decide)).2.2.1 "No Results Found" rfl rfl).2.2,
   ((searchHandler_empty_result sampleDeps (mkRequest "alpha" "alice" "nothing") World.fresh {}
      (by decide) rfl (by decide)).2.2.2.2.2.2.2 (by decide)).1⟩

/-! ## The route "/" -/

/-- C7, as stated, fails: a valid request whose search fails is answered with the
500 error, which is the encoding of no message at all. -/
theorem rootHandler_search_failure_is_500 :
    (mkRequest "alpha" "alice" "boom").FormValue "token" ∈
      Split (sampleDeps.Getenv "SLACK_TOKEN") ',' ∧
    sampleDeps.Search ((mkRequest "alpha" "alice" "boom").FormValue "text") =
      .error "untappd: search failed" ∧
    rootHandler sampleDeps (mkRequest "alpha" "alice" "boom") World.fresh =
      .returned (httpError (((World.fresh.call .serveHTTP).call (.search "boom")).log
        "untappd: search failed") "Internal Server Error" 500) ∧
    (rootHandler sampleDeps (mkRequest "alpha" "alice" "boom") World.fresh).world.Code =
      some 500 ∧
    ¬ ∃ msg : Message,
      rootHandler sampleDeps (mkRequest "alpha" "alice" "boom") World.fresh =
        .returned (writeJSON sampleDeps msg
          ((World.fresh.call .serveHTTP).call (.search "boom"))) := by
  refine ⟨by decide, rfl, by decide, by decide, ?_⟩
  rintro ⟨msg, h⟩
  have h2 : (writeJSON sampleDeps msg
      ((World.fresh.call .serveHTTP).call (.search "boom"))).Code = some 200 :=
    (writeJSON_ok sampleDeps msg _ _ rfl rfl).1
  have h3 : (rootHandler sampleDeps (mkRequest "alpha" "alice" "boom")
      World.fresh).world.Code = some 500 := by decide
  rw [h] at h3
  have h4 : (some 200 : Option Nat) = some 500 := h2.symm.trans h3
  exact absurd h4 (by decide)

/-- C7, amended: on a response not yet written, for a request to the route "/"
with an accepted token, a
non-empty user name other than "slackbot" and a non-empty text, when the search
succeeds the message the handler serialises is exactly one of the empty-result
message (zero items) and a choice message of one to five attachments (at least
one item), given that `slack.NewMessage` starts without attachments and the
empty-result message carries no action; when the search fails the response is
the 500 error. -/
theorem rootHandler_valid_request (d : Deps) (r : Request) (w : World)
    (hw : w.Code = none)
    (hst : d.Getenv "SLACK_TOKEN" ≠ "")
    (hrt : r.FormValue "token" ≠ "")
    (hmem : r.FormValue "token" ∈ Split (d.Getenv "SLACK_TOKEN") ',')
    (hu : r.FormValue "user_name" ≠ "")
    (hbot : r.FormValue "user_name" ≠ "slackbot")
    (htext : r.FormValue "text" ≠ "")
    (hnew : d.NewMessage.Attachments = [])
    (hempty : ∀ a ∈ d.NewEmptyMessage.Attachments, a.Actions = []) :
    (∀ ud, d.Search (r.FormValue "text") = .ok ud →
      rootHandler d r w =
        .returned (writeJSON d (searchMessage d ud)
          ((w.call .serveHTTP).call (.search (r.FormValue "text")))) ∧
      Xor' (searchMessage d ud = d.NewEmptyMessage) (IsChoiceMessage (searchMessage d ud)) ∧
      (searchMessage d ud = d.NewEmptyMessage ↔ ud.Response.Beers.Items = []) ∧
      (∀ b, d.Marshal (searchMessage d ud) = .ok b →
        (rootHandler d r w).world.Code = some 200 ∧
        (rootHandler d r w).world.Body = w.Body ++ b)) ∧
    (∀ err, d.Search (r.FormValue "text") = .error err →
      rootHandler d r w =
        .returned (httpError (((w.call .serveHTTP).call (.search (r.FormValue "text"))).log err)
          (StatusText 500) 500) ∧
      (rootHandler d r w).world.Code = some 500) := by
  have hloop := (authorizedLoop_true_iff _ _).2 hmem
  have hroot : rootHandler d r w = searchHandler d r (w.call .serveHTTP) := by
    simp [rootHandler, isAuthorized, hst, hrt, hu, hbot, hloop]
  constructor
  · intro ud hsearch
    have heq := searchHandler_ok d r (w.call .serveHTTP) ud htext hsearch
    have hchoice : ud.Response.Beers.Items ≠ [] → IsChoiceMessage (searchMessage d ud) := by
      intro hne
      have hatt : (searchMessage d ud).Attachments =
          (ud.Response.Beers.Items.take MaxResults).map (choiceAttachment d) := by
        rw [searchMessage_attachments d ud hne]
        simp [hnew]
      have hpos : 1 ≤ ud.Response.Beers.Items.length :=
        Nat.succ_le_of_lt (List.length_pos.2 hne)
      refine ⟨?_, ?_, ?_⟩
      · rw [hatt, List.length_map, List.length_take]
        exact Nat.le_min.2 ⟨by decide, hpos⟩
      · rw [hatt, List.length_map, List.length_take]
        exact Nat.min_le_left _ _
      · intro a ha
        rw [hatt, List.mem_map] at ha
        obtain ⟨item, _, rfl⟩ := ha
        exact ⟨rfl, rfl⟩
    have hnotempty : IsChoiceMessage d.NewEmptyMessage → False := by
      rintro ⟨h1, _, h3⟩
      cases hl : d.NewEmptyMessage.Attachments with
      | nil => rw [hl] at h1; simp at h1
      | cons a rest =>
        have ha : a ∈ d.NewEmptyMessage.Attachments := by rw [hl]; simp
        have := (h3 a ha).2
        rw [hempty a ha] at this
        simp at this
    have hiff : searchMessage d ud = d.NewEmptyMessage ↔ ud.Response.Beers.Items = [] := by
      constructor
      · intro hm
        by_contra hne
        exact hnotempty (hm ▸ hchoice hne)
      · intro hnil
        simp [searchMessage, hnil]
    refine ⟨by rw [hroot, heq], ?_, hiff, ?_⟩
    · by_cases hnil : ud.Response.Beers.Items = []
      · have hm := hiff.2 hnil
        exact Or.inl ⟨hm, fun hc => hnotempty (hm ▸ hc)⟩
      · exact Or.inr ⟨hchoice hnil, fun hm => hnil (hiff.1 hm)⟩
    · intro b hb
      rw [hroot, heq]
      have := writeJSON_ok d (searchMessage d ud)
        ((w.call .serveHTTP).call (.search (r.FormValue "text"))) b hw hb
      exact ⟨this.1, this.2.1⟩
  · intro err hsearch
    have heq : rootHandler d r w = .returned (httpError
        (((w.call .serveHTTP).call (.search (r.FormValue "text"))).log err)
        (StatusText 500) 500) := by
      rw [hroot]
      simp [searchHandler, htext, hsearch]
    refine ⟨heq, ?_⟩
    rw [heq]
    exact httpError_code _ _ _ hw

/-- Witness of the amended C7 on the sample deployment: the query "ipa" gives a
choice message, and it is not the empty-result message. -/
theorem rootHandler_valid_request_witness :
    Xor' (searchMessage sampleDeps { Response := { Beers := { Items := sevenItems } } } =
        sampleDeps.NewEmptyMessage)
      (IsChoiceMessage
        (searchMessage sampleDeps { Response := { Beers := { Items := sevenItems } } })) :=
  ((rootHandler_valid_request sampleDeps (mkRequest "alpha" "alice" "ipa") World.fresh rfl
    (by decide) (by decide) (by decide) (by decide) (by decide) (by decide) (by decide)
    (by decide)).1 { Response := { Beers := { Items := sevenItems } } } rfl).2.1

/-! ## The selection handler -/

/-- C8: on a response not yet written, when the payload decodes to an action payload whose callback identifier
is not "slappd", whatever its action list, the response is the 400 error and
`untappd.Info` is not called: no call is recorded and the result is the same for
every detail client. -/
theorem selectHandler_rejects_foreign_callback (d : Deps) (r : Request) (w : World)
    (action : ActionPayload)
    (hw : w.Code = none)
    (hdec : d.Unmarshal (r.FormValue "payload") = .ok action)
    (hcb : action.CallbackID ≠ "slappd") :
    selectHandler d r w =
      .returned (httpError (w.log ("invalid callback_id: " ++ action.CallbackID))
        (StatusText 400) 400) ∧
    (selectHandler d r w).world.Code = some 400 ∧
    (selectHandler d r w).world.Calls = w.Calls ∧
    (∀ info : String → Except String InfoData,
      selectHandler { d with Info := info } r w = selectHandler d r w) := by
  have hcb1 : action.CallbackID ≠ callbackID := hcb
  have heq : ∀ d1 : Deps, d1.Unmarshal = d.Unmarshal →
      selectHandler d1 r w = .returned (httpError
        (w.log ("invalid callback_id: " ++ action.CallbackID)) (StatusText 400) 400) := by
    intro d1 h1
    simp [selectHandler, h1, hdec, hcb1]
  refine ⟨heq d rfl, ?_, ?_, ?_⟩
  · rw [heq d rfl]; exact httpError_code _ _ _ hw
  · rw [heq d rfl]; simp [Outcome.world, httpError_calls, World.log]
  · intro info
    rw [heq d rfl, heq { d with Info := info } rfl]

/-- Witness of C8 on the sample deployment: a payload with the callback
identifier "other" is answered 400 and records no call. -/
theorem selectHandler_rejects_foreign_callback_witness :
    (selectHandler sampleDeps
        (mkSelect "\x7b\"callback_id\":\"other\",\"actions\":[]\x7d") World.fresh).world.Code =
      some 400 ∧
    (selectHandler sampleDeps
        (mkSelect "\x7b\"callback_id\":\"other\",\"actions\":[]\x7d") World.fresh).world.Calls =
      World.fresh.Calls :=
  ⟨(selectHandler_rejects_foreign_callback sampleDeps
      (mkSelect "\x7b\"callback_id\":\"other\",\"actions\":[]\x7d") World.fresh
      { Actions := [], CallbackID := "other" } rfl rfl (by decide)).2.1,
   (selectHandler_rejects_foreign_callback sampleDeps
      (mkSelect "\x7b\"callback_id\":\"other\",\"actions\":[]\x7d") World.fresh
      { Actions := [], CallbackID := "other" } rfl rfl (by decide)).2.2.1⟩

/-- C9: on a response not yet written, for a decoded payload with the callback
identifier "slappd" and a first action, `selectHandler` calls `untappd.Info` once, with the value of the first
action, and payloads that agree on the first action give the same outcome; when
the call succeeds the serialised message is `slack.NewMessage` (taken to start
without attachments) with exactly one attachment, whose title, text and image
URL are the record's `Title()`, `Text()` and `Response.Beer.Label`; when it
fails the response is the 500 error. -/
theorem selectHandler_uses_first_action (d : Deps) (r : Request) (w : World)
    (action : ActionPayload) (first : Action) (rest : List Action)
    (hw : w.Code = none)
    (hdec : d.Unmarshal (r.FormValue "payload") = .ok action)
    (hcb : action.CallbackID = "slappd")
    (hacts : action.Actions = first :: rest)
    (hnew : d.NewMessage.Attachments = []) :
    (selectHandler d r w).world.Calls = w.Calls ++ [Call.info first.Value] ∧
    (∀ id, d.Info first.Value = .ok id →
      ∃ msg a, selectHandler d r w = .returned (writeJSON d msg (w.call (.info first.Value))) ∧
        msg.Attachments = [a] ∧ msg.Extra = d.NewMessage.Extra ∧
        a.Title = id.Title ∧ a.Text = id.Text ∧ a.ImageURL = id.Response.Beer.Label ∧
        a.Actions = [] ∧
        (∀ b, d.Marshal msg = .ok b →
          (selectHandler d r w).world.Code = some 200 ∧
          (selectHandler d r w).world.Body = w.Body ++ b)) ∧
    (∀ err, d.Info first.Value = .error err →
      selectHandler d r w =
        .returned (httpError ((w.call (.info first.Value)).log err) (StatusText 500) 500) ∧
      (selectHandler d r w).world.Code = some 500) ∧
    (∀ (r2 : Request) (action2 : ActionPayload) (rest2 : List Action),
      d.Unmarshal (r2.FormValue "payload") = .ok action2 →
      action2.CallbackID = "slappd" → action2.Actions = first :: rest2 →
        selectHandler d r2 w = selectHandler d r w) := by
  have hstep : ∀ (r1 : Request) (action1 : ActionPayload) (rest1 : List Action),
      d.Unmarshal (r1.FormValue "payload") = .ok action1 →
      action1.CallbackID = "slappd" → action1.Actions = first :: rest1 →
      selectHandler d r1 w =
        match d.Info first.Value with
        | .error err =>
          .returned (httpError ((w.call (.info first.Value)).log err) (StatusText 500) 500)
        | .ok id =>
          .returned (writeJSON d
            { d.NewMessage with Attachments := d.NewMessage.Attachments ++ [detailAttachment id] }
            (w.call (.info first.Value))) := by
    intro r1 action1 rest1 h1 h2 h3
    have h2' : action1.CallbackID = callbackID := h2
    simp only [selectHandler, h1, h2', h3, ne_eq, not_true_eq_false, if_false]
  have hmain := hstep r action rest hdec hcb hacts
  refine ⟨?_, ?_, ?_, ?_⟩
  · rw [hmain]
    cases d.Info first.Value with
    | error err => simp [Outcome.world, httpError_calls, World.log, World.call]
    | ok id => simp [Outcome.world, writeJSON_calls, World.call]
  · intro id hid
    rw [hmain, hid]
    refine ⟨_, detailAttachment id, rfl, by simp [hnew], rfl, rfl, rfl, rfl, rfl, ?_⟩
    intro b hb
    have := writeJSON_ok d _ (w.call (.info first.Value)) b hw hb
    exact ⟨this.1, this.2.1⟩
  · intro err herr
    rw [hmain, herr]
    exact ⟨rfl, httpError_code _ _ _ hw⟩
  · intro r2 action2 rest2 h1 h2 h3
    rw [hmain, hstep r2 action2 rest2 h1 h2 h3]

/-- Witness of C9 on the sample deployment: the payload naming the item "123"
records exactly the call `Info("123")`, and a second action changes nothing. -/
theorem selectHandler_uses_first_action_witness :
    (selectHandler sampleDeps
      (mkSelect "\x7b\"callback_id\":\"slappd\",\"actions\":[\x7b\"value\":\"123\"\x7d]\x7d")
      World.fresh).world.Calls = World.fresh.Calls ++ [Call.info "123"] ∧
    selectHandler sampleDeps
      (mkSelect
        "\x7b\"callback_id\":\"slappd\",\"actions\":[\x7b\"value\":\"123\"\x7d,\x7b\"value\":\"9\"\x7d]\x7d")
      World.fresh =
    selectHandler sampleDeps
      (mkSelect "\x7b\"callback_id\":\"slappd\",\"actions\":[\x7b\"value\":\"123\"\x7d]\x7d")
      World.fresh :=
  ⟨(selectHandler_uses_first_action sampleDeps
      (mkSelect "\x7b\"callback_id\":\"slappd\",\"actions\":[\x7b\"value\":\"123\"\x7d]\x7d")
      World.fresh { Actions := [{ Label := "", Value := "123" }], CallbackID := "slappd" }
      { Label := "", Value := "123" } [] rfl rfl rfl rfl rfl).1,
   (selectHandler_uses_first_action sampleDeps
      (mkSelect "\x7b\"callback_id\":\"slappd\",\"actions\":[\x7b\"value\":\"123\"\x7d]\x7d")
      World.fresh { Actions := [{ Label := "", Value := "123" }], CallbackID := "slappd" }
      { Label := "", Value := "123" } [] rfl rfl rfl rfl rfl).2.2.2
      (mkSelect
        "\x7b\"callback_id\":\"slappd\",\"actions\":[\x7b\"value\":\"123\"\x7d,\x7b\"value\":\"9\"\x7d]\x7d")
      { Actions := [{ Label := "", Value := "123" }, { Label := "", Value := "9" }],
        CallbackID := "slappd" }
      [{ Label := "", Value := "9" }] rfl rfl rfl⟩

/-- A decoded payload with the callback identifier "slappd" and no action makes
`selectHandler` panic at `action.Actions[0]`, before any response is written. -/
theorem selectHandler_no_action_panics (d : Deps) (r : Request) (w : World)
    (action : ActionPayload)
    (hdec : d.Unmarshal (r.FormValue "payload") = .ok action)
    (hcb : action.CallbackID = "slappd")
    (hacts : action.Actions = []) :
    selectHandler d r w = .panicked "index out of range [0] with length 0" w := by
  have hcb1 : action.CallbackID = callbackID := hcb
  simp only [selectHandler, hdec, hcb1, hacts, ne_eq, not_true_eq_false, if_false]

/-- C10 fails on the code: the payload with the callback identifier "slappd" and
an empty action list decodes, and `selectHandler` ends in the index panic with
no status, no body and no call, not in a response. -/
theorem selectHandler_empty_actions_panic :
    sampleDeps.Unmarshal
        ((mkSelect "\x7b\"callback_id\":\"slappd\",\"actions\":[]\x7d").FormValue "payload") =
      .ok { Actions := [], CallbackID := "slappd" } ∧
    selectHandler sampleDeps (mkSelect "\x7b\"callback_id\":\"slappd\",\"actions\":[]\x7d")
        World.fresh =
      .panicked "index out of range [0] with length 0" World.fresh ∧
    (∀ w1, selectHandler sampleDeps
        (mkSelect "\x7b\"callback_id\":\"slappd\",\"actions\":[]\x7d") World.fresh ≠
      .returned w1) ∧
    (selectHandler sampleDeps (mkSelect "\x7b\"callback_id\":\"slappd\",\"actions\":[]\x7d")
        World.fresh).world.Code = none := by
  refine ⟨rfl, by decide, ?_, by decide⟩
  intro w1 h
  have h2 : selectHandler sampleDeps
      (mkSelect "\x7b\"callback_id\":\"slappd\",\"actions\":[]\x7d") World.fresh =
      .panicked "index out of range [0] with length 0" World.fresh := by decide
  rw [h2] at h
  cases h

end Slappd
